import Mathlib

/-!
Verification development for the CNZ service23 data-analyst agent core.

The definitions below are a shallow embedding, translated from the Python
source files of the repository:
  - `mindsdb_tool.py` (`MindsDBTool.query`, `execute_mindsdb_tool`)
  - `city_insights_analyzer.py` (`CityInsightsAnalyzer._execute_tool`,
    `CityInsightsAnalyzer.analyze_city`)
  - `mindsdb_agent.py` (`MindsDBAgent.run`: retry loop, result truncation,
    conversation pruning)
  - `postgres_direct_tool.py` (`execute_postgres_direct_tool`)
  - `city_insights_analyzer_gemini.py` (same response parsing as the
    Anthropic analyzer)

External capabilities (the SQL executor, the JSON decoder of the standard
library, Python's `str` serialization of a result dictionary, and the
completion provider) are modelled as explicit function parameters; all
control flow, string tests and truncation arithmetic are translated
directly from the source.
-/

namespace CNZ

/-! ## Python string primitives used by the source -/

/-- Python `sub in s` on lists of characters: `true` iff `needle` occurs as a
contiguous sublist of the argument (the empty needle always occurs). -/
def hasSublist (needle : List Char) : List Char → Bool
  | [] => needle.isEmpty
  | c :: t => needle.isPrefixOf (c :: t) || hasSublist needle t

/-- Python `sub in s` for strings. -/
def strContains (s sub : String) : Bool :=
  hasSublist sub.data s.data

/-- Python `str.lower()` (the source only feeds it ASCII SQL text). -/
def strLower (s : String) : String :=
  String.mk (s.data.map Char.toLower)

/-- Python `str.upper()` (the source only feeds it ASCII SQL text). -/
def strUpper (s : String) : String :=
  String.mk (s.data.map Char.toUpper)

/-- Characters removed by Python `str.strip()` with no arguments. -/
def isPyWhitespace (c : Char) : Bool :=
  c = ' ' || c = '\t' || c = '\n' || c = '\r' || c = '\x0b' || c = '\x0c'

/-- Python `str.strip()`: drop whitespace from both ends. -/
def pyStrip (s : String) : String :=
  String.mk (((s.data.dropWhile isPyWhitespace).reverse.dropWhile isPyWhitespace).reverse)

/-- Python `s.startswith(p)`. -/
def strStartsWith (s p : String) : Bool :=
  p.data.isPrefixOf s.data

/-- Digit run to a number, as Python `int()` on the captured group. -/
def digitsToNat (ds : List Char) : Nat :=
  ds.foldl (fun acc c => acc * 10 + (c.toNat - '0'.toNat)) 0

/-- The match attempt of the regex `limit\s+(\d+)` at one position, given the
characters that follow the literal `limit`: at least one whitespace character,
then at least one digit; returns the captured number. -/
def limitNumAfter (rest : List Char) : Option Nat :=
  let ws := rest.takeWhile isPyWhitespace
  if ws.isEmpty then none
  else
    let ds := (rest.dropWhile isPyWhitespace).takeWhile Char.isDigit
    if ds.isEmpty then none else some (digitsToNat ds)

/-- Python `re.search(r'limit\s+(\d+)', s)`: leftmost position where the whole
pattern matches, returning the captured number. -/
def findLimitNum : List Char → Option Nat
  | [] => none
  | c :: t =>
    if "limit".data.isPrefixOf (c :: t) then
      match limitNumAfter ((c :: t).drop 5) with
      | some n => some n
      | none => findLimitNum t
    else findLimitNum t

/-! ## QueryGuard of `MindsDBTool.query` (`mindsdb_tool.py`, lines 30-71)

`MindsDBTool.query` either returns one of four error dictionaries before the
HTTP call, or reaches the HTTP executor.  The decision is a pure function of
the SQL text and the `allow_write` flag; each constructor below corresponds to
exactly one `return` in the source (carrying the source's error message), and
`execute` means control reaches the `try` block that posts the query. -/

inductive MindsDBDecision
  /-- returns "Write operations not allowed. Use allow_write=True to enable." -/
  | rejectWrite
  /-- returns "Query must include LIMIT clause when selecting raw_data or error_details ..." -/
  | rejectLargeMissingLimit
  /-- returns "LIMIT n too high for raw_data queries. ..." -/
  | rejectLimitTooHigh (n : Nat)
  /-- returns "SELECT * not allowed. Always specify explicit column names ..." -/
  | rejectSelectStar
  /-- the query is posted to the MindsDB HTTP API -/
  | execute
deriving DecidableEq, Repr

/-- The write/DDL keywords of `mindsdb_tool.py` line 32. -/
def writeKeywords : List String :=
  ["INSERT", "UPDATE", "DELETE", "ALTER", "CREATE", "DROP", "TRUNCATE"]

/-- `mindsdb_tool.py` line 33: leading-keyword write detection over
`sql.strip().upper()`. -/
def isWriteOperation (sql : String) : Bool :=
  writeKeywords.any (fun k => strStartsWith (strUpper (pyStrip sql)) k)

/-- `MindsDBTool.query` guard, `mindsdb_tool.py` lines 30-71: write check,
then the large-column (`raw_data`/`error_details`) checks, then the
`select *` check, in the order of the source. -/
def mindsdbQuery (sql : String) (allow_write : Bool) : MindsDBDecision :=
  if isWriteOperation sql && !allow_write then .rejectWrite
  else
    let sql_lower := strLower sql
    let afterLarge : MindsDBDecision :=
      if strContains sql_lower "select *" then .rejectSelectStar else .execute
    if strContains sql_lower "raw_data" || strContains sql_lower "error_details" then
      if !strContains sql_lower "limit" then .rejectLargeMissingLimit
      else
        match findLimitNum sql_lower.data with
        | some n => if n > 10 then .rejectLimitTooHigh n else afterLarge
        | none => afterLarge
    else afterLarge

/-! ## `execute_mindsdb_tool` dispatcher (`mindsdb_tool.py`, lines 273-338)

The dispatcher routes an operation name to the helper that performs it; the
helpers other than `custom_query`/`alter_table` build a fixed SQL string and
call `MindsDBTool.query` themselves, which we record as a tagged call.  Each
`err` constructor carries the source's error message. -/

inductive MindsDBDispatch
  | sampleCall (limit : Nat)
  | countCall
  | searchUrlCall (pattern : String) (limit : Nat)
  | successfulCall (limit : Nat)
  | failedCall (limit : Nat)
  | byFileTypeCall (ft : String) (limit : Nat)
  | statisticsCall
  /-- a direct `tool.query(sql, allow_write)` invocation -/
  | queryCall (sql : String) (allow_write : Bool)
  | err (msg : String)
deriving DecidableEq, Repr

/-- Python truthiness test `not x` for an optional string argument: `None` and
the empty string are falsy. -/
def optStrFalsy : Option String → Bool
  | none => true
  | some s => s.isEmpty

/-- `execute_mindsdb_tool(operation, limit, url_pattern, file_type, custom_sql,
allow_write)`, `mindsdb_tool.py` lines 297-335.  For `alter_table` the source
comments "Force allow_write=True for alter_table operations" and passes
`allow_write=True` unconditionally. -/
def executeMindsdbTool (operation : String) (limit : Nat) (url_pattern : Option String)
    (file_type : Option String) (custom_sql : Option String) (allow_write : Bool) :
    MindsDBDispatch :=
  if operation = "sample" then .sampleCall limit
  else if operation = "count" then .countCall
  else if operation = "search_url" then
    if optStrFalsy url_pattern then .err "url_pattern required for search_url operation"
    else .searchUrlCall (url_pattern.getD "") limit
  else if operation = "successful" then .successfulCall limit
  else if operation = "failed" then .failedCall limit
  else if operation = "by_file_type" then
    if optStrFalsy file_type then .err "file_type required for by_file_type operation"
    else .byFileTypeCall (file_type.getD "") limit
  else if operation = "statistics" then .statisticsCall
  else if operation = "custom_query" then
    if optStrFalsy custom_sql then .err "custom_sql required for custom_query operation"
    else .queryCall (custom_sql.getD "") allow_write
  else if operation = "alter_table" then
    if optStrFalsy custom_sql then .err "custom_sql required for alter_table operation"
    else .queryCall (custom_sql.getD "") true
  else .err ("Unknown operation: " ++ operation)

/-! ## Python index/slice primitives used by the response parser -/

/-- Helper for Python `str.find`: first index at which `needle` is a prefix of
the remaining characters, offset by the accumulator. -/
def findAt (needle : List Char) : List Char → Nat → Option Nat
  | [], i => if needle.isEmpty then some i else none
  | c :: t, i => if needle.isPrefixOf (c :: t) then some i else findAt needle t (i + 1)

/-- Python `s.find(sub, start)` with a non-negative start: `-1` when absent. -/
def pyFindFrom (s sub : String) (start : Nat) : Int :=
  if start > s.data.length then -1
  else
    match findAt sub.data (s.data.drop start) 0 with
    | some j => ((start + j : Nat) : Int)
    | none => -1

/-- Python `s.find(sub)`. -/
def pyFind (s sub : String) : Int :=
  pyFindFrom s sub 0

/-- Helper for Python `str.rfind`: last index at which `needle` occurs. -/
def rfindAt (needle : List Char) : List Char → Nat → Option Nat → Option Nat
  | [], i, acc => if needle.isEmpty then some i else acc
  | c :: t, i, acc =>
    rfindAt needle t (i + 1) (if needle.isPrefixOf (c :: t) then some i else acc)

/-- Python `s.rfind(sub)`: `-1` when absent. -/
def pyRFind (s sub : String) : Int :=
  match rfindAt sub.data s.data 0 none with
  | some i => (i : Int)
  | none => -1

/-- Python slice-index normalization for step 1: negative indices count from
the end, then the result is clamped to `[0, len]`. -/
def pyClampIndex (len : Nat) (i : Int) : Nat :=
  if i < 0 then (if (len : Int) + i < 0 then 0 else ((len : Int) + i).toNat)
  else min i.toNat len

/-- Python `s[a:b]` for strings (step 1). -/
def pySlice (s : String) (a b : Int) : String :=
  String.mk ((s.data.take (pyClampIndex s.data.length b)).drop (pyClampIndex s.data.length a))

/-! ## ResponseParser (`city_insights_analyzer.py` lines 324-348, identical in
`city_insights_analyzer_gemini.py` lines 330-352)

`json.loads` is external: it is modelled as a `decode` parameter returning
`none` exactly when the source would raise `json.JSONDecodeError`. -/

/-- Structured final answer: the fields of the fallback dictionary built by
the analyzers (`insight_summary`, `detailed_analysis`, `data_sources_used`,
`confidence_score`, `recommendations`). -/
structure InsightData where
  insight_summary : String
  detailed_analysis : String
  data_sources_used : List String
  confidence_score : ℚ
  recommendations : List String
deriving DecidableEq, Repr

/-- JSON-substring extraction, `city_insights_analyzer.py` lines 327-337:
a fenced block tagged json, else first left brace through last right brace,
else the whole text.  In the fenced branch `find` cannot return `-1` (the
fence was just found), so the `+ 7` offset is taken on the found index. -/
def extractJsonStr (final_response : String) : String :=
  if strContains final_response "```json" then
    let json_start : Nat := (pyFind final_response "```json").toNat + 7
    let json_end : Int := pyFindFrom final_response "```" json_start
    pyStrip (pySlice final_response (json_start : Int) json_end)
  else if strContains final_response "\x7b" && strContains final_response "\x7d" then
    let json_start : Int := pyFind final_response "\x7b"
    let json_end : Int := pyRFind final_response "\x7d" + 1
    pySlice final_response json_start json_end
  else final_response

/-- The parse step of the analyzers' final branch: decode the extracted
substring; on decode failure build the fallback dictionary of
`city_insights_analyzer.py` lines 342-348 (note `data_sources_used` is the
one-element list containing the string unknown). -/
def parseFinalResponse (decode : String → Option InsightData) (final_response : String) :
    InsightData :=
  match decode (extractJsonStr final_response) with
  | some d => d
  | none =>
    { insight_summary := pySlice final_response 0 200
      detailed_analysis := final_response
      data_sources_used := ["unknown"]
      confidence_score := 1/2
      recommendations := [] }

/-! ## ResultShaper and `query_database` tool
(`CityInsightsAnalyzer._execute_tool`, `city_insights_analyzer.py` lines 86-132)

Python's `str(result)` serialization is external state-free code: it is
modelled as a `strLen` parameter giving the serialized length of a result
dictionary. -/

/-- Result dictionary of the SQL executor and of the tool: the union of the
keys used by the source (`success`, `data`, `columns`, `row_count`, `note`,
`error`); keys absent from a given dictionary are `none`/defaulted, matching
the source's `.get` accesses. -/
structure ToolResult (α : Type) where
  success : Bool
  data : List α
  columns : List String
  row_count : Nat
  note : Option String
  error : Option String
deriving DecidableEq, Repr

/-- Note attached by the first truncation (line 116 of the analyzer). -/
def noteFive (n : Nat) : String :=
  "Result truncated to first 5 rows (of " ++ toString n ++ " total) to save context"

/-- Note attached by the second truncation (line 127 of the analyzer). -/
def noteTwo (n : Nat) : String :=
  "Result heavily truncated (showing 2 of " ++ toString n ++ " rows) due to size"

/-- The first-truncation dictionary (analyzer lines 111-117): first 5 rows,
original `row_count`, five-row note. -/
def fiveRowResult (result : ToolResult α) : ToolResult α :=
  { success := true
    row_count := result.row_count
    columns := result.columns
    data := result.data.take 5
    note := some (noteFive result.row_count)
    error := none }

/-- ResultShaper (analyzer lines 104-129): on a successful result with at
least one row, cap to 5 rows; if the serialized form of that dictionary
exceeds 3000, cap to the first 2 rows instead; other results pass through. -/
def shapeResult (strLen : ToolResult α → Nat) (result : ToolResult α) : ToolResult α :=
  if result.success = true ∧ result.row_count > 0 then
    if strLen (fiveRowResult result) > 3000 then
      { success := true
        row_count := result.row_count
        columns := result.columns
        data := (result.data.take 5).take 2
        note := some (noteTwo result.row_count)
        error := none }
    else fiveRowResult result
  else result

/-- `CityInsightsAnalyzer._execute_tool` (lines 86-132): the `query_database`
branch requires the lowercased SQL to contain the substring limit before
invoking the executor `exec`; the returned Boolean records whether the
executor (`self.postgres.query`) was invoked. -/
def executeQueryTool (exec : String → ToolResult α) (strLen : ToolResult α → Nat)
    (tool_name : String) (sql : String) : ToolResult α × Bool :=
  if tool_name = "query_database" then
    if !strContains (strLower sql) "limit" then
      ({ success := false, data := [], columns := [], row_count := 0, note := none,
         error := some "LIMIT clause required in all queries" }, false)
    else (shapeResult strLen (exec sql), true)
  else
    ({ success := false, data := [], columns := [], row_count := 0, note := none,
       error := some ("Unknown tool: " ++ tool_name) }, false)

/-! ## `execute_postgres_direct_tool` (`postgres_direct_tool.py` lines 173-197) -/

inductive PostgresDirectDispatch
  /-- `query_zebra_crossings(limit)` is invoked -/
  | zebraCall (limit : Nat)
  /-- the guard passed and `tool.query(custom_sql)` is invoked -/
  | executeSql (sql : String)
  /-- an error dictionary is returned without touching the database -/
  | errorResult (msg : String)
deriving DecidableEq, Repr

/-- Dispatcher of `postgres_direct_tool.py` lines 173-197: the `custom_query`
branch rejects SQL whose lowercased text lacks the substring limit. -/
def executePostgresDirectTool (operation : String) (custom_sql : Option String)
    (limit : Nat) : PostgresDirectDispatch :=
  if operation = "zebra_crossings" then .zebraCall limit
  else if operation = "custom_query" then
    if optStrFalsy custom_sql then
      .errorResult "custom_sql required for custom_query operation"
    else
      let sql := custom_sql.getD ""
      if !strContains (strLower sql) "limit" then
        .errorResult "LIMIT clause required for direct PostgreSQL queries to avoid context overflow"
      else .executeSql sql
  else .errorResult ("Unknown operation: " ++ operation)

/-! ## RetryPolicy (`MindsDBAgent.run`, `mindsdb_agent.py` lines 174-199)

The completion capability is a parameter `attempt : Nat → Except String α`
giving, for each attempt index, either the provider's response or the text of
the raised exception.  The function returns the final outcome together with
the list of back-off sleeps (in seconds, in order). -/

/-- Error classification of `mindsdb_agent.py` line 189: the exception text
contains rate or limit, case-insensitively. -/
def isRateLimitText (e : String) : Bool :=
  strContains (strLower e) "rate" || strContains (strLower e) "limit"

/-- `max_retries = 5` (`mindsdb_agent.py` line 174). -/
def agentMaxRetries : Nat := 5

/-- One pass of the `for retry in range(max_retries)` loop; `fuel` is the
number of loop indices left, so the first argument `agentMaxRetries` makes
the fuel-0 branch unreachable. -/
def retryLoop (attempt : Nat → Except String α) :
    Nat → Nat → List Nat → Except String α × List Nat
  | 0, _, sleeps => (.error "retry loop exhausted", sleeps)
  | fuel + 1, retry, sleeps =>
    match attempt retry with
    | .ok v => (.ok v, sleeps)
    | .error e =>
      if isRateLimitText e then
        if retry < agentMaxRetries - 1 then
          retryLoop attempt fuel (retry + 1) (sleeps ++ [2 ^ retry * 3])
        else (.error e, sleeps)
      else (.error e, sleeps)

/-- The retry wrapper around the completion call (`mindsdb_agent.py` lines
174-199): wait time `(2 ** retry) * 3` before each re-attempt, classified
errors only, propagation after the last attempt. -/
def callWithRetry (attempt : Nat → Except String α) : Except String α × List Nat :=
  retryLoop attempt agentMaxRetries 0 []

/-! ## Conversation turns and ContextPruner

Turns as they appear in the two conversation encodings of the source:
the Anthropic analyzer bundles all tool results of one assistant turn into a
single user-role message (`city_insights_analyzer.py` lines 299-310), while
the LiteLLM agent appends one tool-role message per tool call
(`mindsdb_agent.py` lines 279-304). -/

inductive Msg
  /-- a plain user message -/
  | userTurn (content : String)
  /-- an assistant message; `toolCallIds` are the ids of its tool requests
  (empty for a plain text turn) -/
  | assistantTurn (content : String) (toolCallIds : List Nat)
  /-- one tool-role result message (agent encoding) -/
  | toolResultTurn (callId : Nat)
  /-- one user-role message bundling the tool results (analyzer encoding) -/
  | userToolResults (callIds : List Nat)
deriving DecidableEq, Repr

inductive Role
  | user
  | assistant
  | tool
deriving DecidableEq, Repr

/-- The `role` key of the message dictionary. -/
def Msg.role : Msg → Role
  | .userTurn _ => .user
  | .assistantTurn _ _ => .assistant
  | .toolResultTurn _ => .tool
  | .userToolResults _ => .user

/-- Whether the message is a tool-result message (either encoding). -/
def Msg.isToolResult : Msg → Bool
  | .toolResultTurn _ => true
  | .userToolResults _ => true
  | _ => false

/-- Whether the message is an assistant turn carrying tool requests. -/
def Msg.hasToolRequests : Msg → Bool
  | .assistantTurn _ ids => !ids.isEmpty
  | _ => false

/-- ContextPruner of the analyzer (`city_insights_analyzer.py` lines 256-260):
when more than 6 messages, keep the last 6 (`messages[-6:]`), with no
adjustment of any kind. -/
def pruneAnalyzer (msgs : List Msg) : List Msg :=
  if msgs.length > 6 then msgs.drop (msgs.length - 6) else msgs

/-- ContextPruner of the agent (`mindsdb_agent.py` lines 306-321): when more
than 12 messages, keep the first message plus the last 10; if the first of
those 10 has role user, keep the last 9 instead (dropping that turn). -/
def pruneAgent (msgs : List Msg) : List Msg :=
  if msgs.length > 12 then
    msgs.take 1 ++
      (match msgs.drop (msgs.length - 10) with
       | m :: rest => if m.role = Role.user then msgs.drop (msgs.length - 9) else m :: rest
       | [] => msgs.drop (msgs.length - 10))
  else msgs

/-- Modelled from the spec: the pruning behaviour asserted by the claim - keep
the first turn plus the most recent turns, and when the naive tail-slice would
start mid-pair (on a tool-result turn), extend the slice backward by one turn
to restore the pairing.  Used only to compare the claimed behaviour with the
source's `pruneAgent`. -/
def pruneClaimBackwardExtend (msgs : List Msg) : List Msg :=
  if msgs.length > 12 then
    msgs.take 1 ++
      (match msgs.drop (msgs.length - 10) with
       | m :: rest => if m.isToolResult then msgs.drop (msgs.length - 11) else m :: rest
       | [] => msgs.drop (msgs.length - 10))
  else msgs

/-- The tool-result turns answering an assistant turn's requests start right
after it: either the single bundled user-role result message (analyzer
encoding) or one tool-role message per call id, in order (agent encoding). -/
def answersAt (msgs : List Msg) (i : Nat) (ids : List Nat) : Prop :=
  msgs[i]? = some (.userToolResults ids) ∨
    ∀ k, (hk : k < ids.length) → msgs[i + k]? = some (.toolResultTurn (ids.get ⟨k, hk⟩))

/-- Pairing invariant of the conversation data model: every assistant turn
with tool requests is immediately followed by the tool results answering
those requests. -/
def WellPaired (msgs : List Msg) : Prop :=
  ∀ i c ids, msgs[i]? = some (.assistantTurn c ids) → ids ≠ [] → answersAt msgs (i + 1) ids

/-- Dropping a prefix preserves the pairing invariant: every assistant turn
kept by a tail slice keeps its following result turns too. -/
theorem wellPaired_drop (msgs : List Msg) (n : Nat) (h : WellPaired msgs) :
    WellPaired (msgs.drop n) := by
  intro i c ids hi hne
  rw [List.getElem?_drop] at hi
  rcases h (n + i) c ids hi hne with hb | hb
  · left
    rw [List.getElem?_drop, show n + (i + 1) = n + i + 1 by omega]
    exact hb
  · right
    intro k hk
    rw [List.getElem?_drop]
    have := hb k hk
    rw [show n + (i + 1 + k) = n + i + 1 + k by omega]
    exact this

/-- Prepending a turn with no tool requests preserves the pairing invariant. -/
theorem wellPaired_cons (m : Msg) (msgs : List Msg) (hm : m.hasToolRequests = false)
    (h : WellPaired msgs) : WellPaired (m :: msgs) := by
  intro i c ids hi hne
  cases i with
  | zero =>
    simp only [List.getElem?_cons_zero] at hi
    cases hi
    cases ids with
    | nil => exact absurd rfl hne
    | cons a t => simp [Msg.hasToolRequests] at hm
  | succ j =>
    rw [List.getElem?_cons_succ] at hi
    rcases h j c ids hi hne with hb | hb
    · left
      rw [show j + 1 + 1 = (j + 1) + 1 by omega, List.getElem?_cons_succ]
      exact hb
    · right
      intro k hk
      rw [show j + 1 + 1 + k = (j + 1 + k) + 1 by omega, List.getElem?_cons_succ]
      exact hb k hk

/-! ## Orchestrator loop of `CityInsightsAnalyzer.analyze_city`
(`city_insights_analyzer.py` lines 245-364)

The completion capability is modelled as a script: the list of successive
responses (or raised exceptions) the provider produces. -/

/-- One tool request of an assistant turn (`ToolUseBlock`): its id, tool name
and the `sql` argument. -/
structure ToolCallReq where
  id : Nat
  name : String
  sql : String
deriving DecidableEq, Repr

/-- One response of the completion capability, or the exception it raises. -/
inductive ModelTurn
  /-- stop reason `tool_use`, with the requested tool calls -/
  | toolUse (text : String) (calls : List ToolCallReq)
  /-- a final turn with no tool requests -/
  | finalTurn (text : String)
  /-- the provider raises `RateLimitError` -/
  | rateLimitErr
  /-- the provider raises some other exception with the given text -/
  | raisedErr (msg : String)
deriving DecidableEq, Repr

/-- Outcome of `analyze_city`. -/
inductive AnalyzerOutcome
  /-- the success dictionary wrapping the parsed insight -/
  | finalAnswer (insight : InsightData)
  /-- the error dictionary "Max iterations reached without completion" -/
  | maxIterationsReached
  /-- an exception propagated out of the loop -/
  | raised (msg : String)
  /-- modelling artifact: the script provided no further response -/
  | scriptExhausted
deriving DecidableEq, Repr

/-- The `while iteration < max_iterations` loop of `analyze_city` (lines
252-356); `fuel` is the number of remaining iterations, starting at 12.  Each
iteration prunes the conversation, then consumes the provider's next
response.  On a tool-use turn every requested call is dispatched through
`_execute_tool` (here `executeQueryTool exec strLen`, whose results feed the
appended tool-result message) and the dispatched requests are appended to the
returned trace.  On a rate-limit error the code sleeps 5 seconds and
continues; on a context-overflow error it keeps only the last two messages
and continues; other exceptions propagate. -/
def analyzerLoop (decode : String → Option InsightData) (exec : String → ToolResult α)
    (strLen : ToolResult α → Nat) :
    Nat → List ModelTurn → List Msg → List ToolCallReq → AnalyzerOutcome × List ToolCallReq
  | 0, _, _, trace => (.maxIterationsReached, trace)
  | fuel + 1, script, msgs, trace =>
    let msgs := pruneAnalyzer msgs
    match script with
    | [] => (.scriptExhausted, trace)
    | turn :: rest =>
      match turn with
      | .rateLimitErr => analyzerLoop decode exec strLen fuel rest msgs trace
      | .raisedErr m =>
        if strContains (strLower m) "too long" || strContains m "204675" then
          analyzerLoop decode exec strLen fuel rest (msgs.drop (msgs.length - 2)) trace
        else (.raised m, trace)
      | .toolUse text calls =>
        let results := calls.map (fun c => (executeQueryTool exec strLen c.name c.sql).1)
        let msgs := msgs ++ [Msg.assistantTurn text (calls.map (fun c => c.id)),
          Msg.userToolResults ((calls.zip results).map (fun p => p.1.id))]
        analyzerLoop decode exec strLen fuel rest msgs (trace ++ calls)
      | .finalTurn text => (.finalAnswer (parseFinalResponse decode text), trace)

/-- `analyze_city` entry: 12 iterations maximum (line 249), conversation
seeded with the user message. -/
def analyzeCityRun (decode : String → Option InsightData) (exec : String → ToolResult α)
    (strLen : ToolResult α → Nat) (user_message : String) (script : List ModelTurn) :
    AnalyzerOutcome × List ToolCallReq :=
  analyzerLoop decode exec strLen 12 script [Msg.userTurn user_message] []

/-- Number of query-class (name `query_database`) tool dispatches in a trace. -/
def countQueryDispatches (trace : List ToolCallReq) : Nat :=
  (trace.filter (fun c => c.name == "query_database")).length

/-! ## Helper lemmas shared by the claim theorems -/

/-- With `allow_write = true` the write branch of `MindsDBTool.query` is
skipped, so the write rejection can never be returned. -/
theorem mindsdbQuery_true_ne_rejectWrite (sql : String) :
    mindsdbQuery sql true ≠ .rejectWrite := by
  unfold mindsdbQuery
  simp only [Bool.not_true, Bool.and_false, Bool.false_eq_true, if_false]
  repeat' split
  all_goals simp

/-- When the guard's substring tests find no guarded column and no wildcard,
a non-write (or write-allowed) query reaches the executor. -/
theorem mindsdbQuery_plain_execute (sql : String) (aw : Bool)
    (hw : isWriteOperation sql = false ∨ aw = true)
    (hrd : strContains (strLower sql) "raw_data" = false)
    (hed : strContains (strLower sql) "error_details" = false)
    (hst : strContains (strLower sql) "select *" = false) :
    mindsdbQuery sql aw = .execute := by
  unfold mindsdbQuery
  have hcond : (isWriteOperation sql && !aw) = false := by
    rcases hw with h | h <;> simp [h]
  simp [hcond, hrd, hed, hst]

/-- A query that references a guarded large column and lacks the limit
substring is rejected by the large-column branch (once the write branch does
not fire). -/
theorem mindsdbQuery_largeCol_noLimit (sql : String) (aw : Bool)
    (hlarge : strContains (strLower sql) "raw_data" = true ∨
      strContains (strLower sql) "error_details" = true)
    (hnolimit : strContains (strLower sql) "limit" = false)
    (hw : isWriteOperation sql = false ∨ aw = true) :
    mindsdbQuery sql aw = .rejectLargeMissingLimit := by
  unfold mindsdbQuery
  have hcond : (isWriteOperation sql && !aw) = false := by
    rcases hw with h | h <;> simp [h]
  rcases hlarge with h | h <;> simp [hcond, h, hnolimit]

/-! ## Concrete capability instances used by witnesses and counterexamples -/

/-- A concrete SQL-executor capability returning an empty successful result. -/
def execEmptyOk : String → ToolResult Unit :=
  fun _ => { success := true, data := [], columns := [], row_count := 0,
             note := none, error := none }

/-- A concrete serialization-length capability. -/
def lenZero : ToolResult Unit → Nat := fun _ => 0

/-- A concrete JSON decoder that always fails. -/
def decodeNone : String → Option InsightData := fun _ => none

/-! ## Claim theorems -/

/-- C7: for every SQL string whose leading keyword (after stripping
whitespace, upper-cased) is one of INSERT, UPDATE, DELETE, ALTER, CREATE,
DROP, TRUNCATE, submitted with `allow_write` unset, `MindsDBTool.query`
returns the write rejection before the executor is reached: the decision is
`rejectWrite`, never `execute`. -/
theorem claim_C7_write_rejected (sql : String) (h : isWriteOperation sql = true) :
    mindsdbQuery sql false = .rejectWrite := by
  unfold mindsdbQuery
  simp [h]

/-- Witness for C7 at a concrete DROP statement. -/
theorem claim_C7_write_rejected_witness :
    isWriteOperation "DROP TABLE service19_onboarding_data" = true ∧
    mindsdbQuery "DROP TABLE service19_onboarding_data" false = .rejectWrite :=
  ⟨by decide, claim_C7_write_rejected "DROP TABLE service19_onboarding_data" (by decide)⟩

/-- SQL text containing both an unqualified wildcard projection and a guarded
large column, with no row-limiting clause. -/
def c8Sql : String :=
  "SELECT * FROM datasource_postgres.service19_onboarding_data WHERE raw_data IS NOT NULL"

/-- C8 counterexample: on a query containing both `select *` and `raw_data`
with no limit, `MindsDBTool.query` returns the large-column missing-limit
rejection, not the wildcard rejection — the source checks the guarded
columns (lines 44-63) before `select *` (lines 66-70), so the claimed
rule order (wildcard before large-column) does not hold. -/
theorem claim_C8_counterexample :
    strContains (strLower c8Sql) "select *" = true ∧
    strContains (strLower c8Sql) "raw_data" = true ∧
    strContains (strLower c8Sql) "limit" = false ∧
    mindsdbQuery c8Sql false = .rejectLargeMissingLimit ∧
    mindsdbQuery c8Sql false ≠ .rejectSelectStar := by decide

/-- C8 amended: the guard applies write → guarded-large-column → wildcard, in
that order with first match winning: for every SQL text that contains an
unqualified `SELECT *` and references a guarded column without a
row-limiting clause (and does not fall to the write rule first), the
rejection reason is the large-column missing-limit reason, not
WildcardProjection. -/
theorem claim_C8_large_column_checked_first (sql : String) (aw : Bool)
    (_hstar : strContains (strLower sql) "select *" = true)
    (hlarge : strContains (strLower sql) "raw_data" = true ∨
      strContains (strLower sql) "error_details" = true)
    (hnolimit : strContains (strLower sql) "limit" = false)
    (hw : isWriteOperation sql = false ∨ aw = true) :
    mindsdbQuery sql aw = .rejectLargeMissingLimit :=
  mindsdbQuery_largeCol_noLimit sql aw hlarge hnolimit hw

/-- Witness for C8's amended theorem at the concrete wildcard query. -/
theorem claim_C8_large_column_checked_first_witness :
    strContains (strLower c8Sql) "select *" = true ∧
    strContains (strLower c8Sql) "limit" = false ∧
    mindsdbQuery c8Sql false = .rejectLargeMissingLimit :=
  ⟨by decide, by decide,
    claim_C8_large_column_checked_first c8Sql false (by decide) (Or.inl (by decide))
      (by decide) (Or.inl (by decide))⟩

/-- A DDL statement that mentions a guarded large column. -/
def c9Sql : String :=
  "ALTER TABLE service19_onboarding_data ALTER COLUMN raw_data TYPE TEXT"

/-- C9 counterexample: `alter_table` does force `allow_write = True`, but the
statement does not always reach the executor — this ALTER statement mentions
`raw_data` and has no limit, so the guard still rejects it with the
large-column missing-limit error and the executor is never invoked. -/
theorem claim_C9_counterexample :
    isWriteOperation c9Sql = true ∧
    executeMindsdbTool "alter_table" 10 none none (some c9Sql) false =
      .queryCall c9Sql true ∧
    mindsdbQuery c9Sql true = .rejectLargeMissingLimit ∧
    mindsdbQuery c9Sql true ≠ .execute := by decide

/-- C9 amended: for every non-empty statement with a leading write/DDL
keyword submitted with `operation = alter_table`, the dispatcher passes
`allow_write = True` regardless of the caller's flag, so the write guard
never rejects it; it reaches the executor provided the remaining rules
(guarded large column without limit, wildcard projection) do not reject
it. -/
theorem claim_C9_alter_table_forces_write (sql : String) (aw : Bool)
    (_hw : isWriteOperation sql = true) (hne : sql.isEmpty = false) :
    executeMindsdbTool "alter_table" 10 none none (some sql) aw = .queryCall sql true ∧
    mindsdbQuery sql true ≠ .rejectWrite ∧
    (strContains (strLower sql) "raw_data" = false →
      strContains (strLower sql) "error_details" = false →
      strContains (strLower sql) "select *" = false →
      mindsdbQuery sql true = .execute) := by
  refine ⟨?_, mindsdbQuery_true_ne_rejectWrite sql, ?_⟩
  · unfold executeMindsdbTool
    repeat rw [if_neg (by decide)]
    rw [if_pos rfl, if_neg (by simp [optStrFalsy, hne])]
    rfl
  · intro hrd hed hst
    exact mindsdbQuery_plain_execute sql true (Or.inr rfl) hrd hed hst

/-- Witness for C9's amended theorem at a concrete ALTER statement. -/
theorem claim_C9_alter_table_forces_write_witness :
    isWriteOperation "ALTER TABLE service19_onboarding_data ADD COLUMN city_name TEXT" = true ∧
    (executeMindsdbTool "alter_table" 10 none none
        (some "ALTER TABLE service19_onboarding_data ADD COLUMN city_name TEXT") false =
      .queryCall "ALTER TABLE service19_onboarding_data ADD COLUMN city_name TEXT" true ∧
    mindsdbQuery "ALTER TABLE service19_onboarding_data ADD COLUMN city_name TEXT" true ≠
      .rejectWrite ∧
    (strContains (strLower "ALTER TABLE service19_onboarding_data ADD COLUMN city_name TEXT")
        "raw_data" = false →
      strContains (strLower "ALTER TABLE service19_onboarding_data ADD COLUMN city_name TEXT")
        "error_details" = false →
      strContains (strLower "ALTER TABLE service19_onboarding_data ADD COLUMN city_name TEXT")
        "select *" = false →
      mindsdbQuery "ALTER TABLE service19_onboarding_data ADD COLUMN city_name TEXT" true =
        .execute)) :=
  ⟨by decide,
    claim_C9_alter_table_forces_write
      "ALTER TABLE service19_onboarding_data ADD COLUMN city_name TEXT" false
      (by decide) (by decide)⟩

/-- A query that touches only small columns and has no row-limiting clause. -/
def c2Sql : String :=
  "SELECT data_format FROM datasource_postgres.service19_onboarding_data"

/-- C2 counterexample: `MindsDBTool.query` has no general missing-limit rule:
this small-column query without any limit passes the guard and the SQL
executor is invoked, so the claimed universal MissingLimit rejection does
not hold for the MindsDB guard. -/
theorem claim_C2_counterexample :
    strContains (strLower c2Sql) "limit" = false ∧
    mindsdbQuery c2Sql false = .execute := by decide

/-- C2 amended: for every SQL string whose lowercased text lacks the
substring limit, the analyzer's `query_database` guard rejects it with the
missing-limit error and the executor is not invoked; `MindsDBTool.query`
rejects such a string only when it references a guarded large column (with
the large-column variant, after the write check) — otherwise, for non-write
non-wildcard text, the no-limit SQL reaches the executor. -/
theorem claim_C2_missing_limit_guard {α : Type} (exec : String → ToolResult α)
    (strLen : ToolResult α → Nat) (sql : String) (aw : Bool)
    (h : strContains (strLower sql) "limit" = false) :
    (executeQueryTool exec strLen "query_database" sql).1.error =
      some "LIMIT clause required in all queries" ∧
    (executeQueryTool exec strLen "query_database" sql).2 = false ∧
    ((strContains (strLower sql) "raw_data" = true ∨
        strContains (strLower sql) "error_details" = true) →
      (isWriteOperation sql = false ∨ aw = true) →
      mindsdbQuery sql aw = .rejectLargeMissingLimit) ∧
    (strContains (strLower sql) "raw_data" = false →
      strContains (strLower sql) "error_details" = false →
      strContains (strLower sql) "select *" = false →
      (isWriteOperation sql = false ∨ aw = true) →
      mindsdbQuery sql aw = .execute) := by
  refine ⟨by simp [executeQueryTool, h], by simp [executeQueryTool, h], ?_, ?_⟩
  · intro hlarge hw
    exact mindsdbQuery_largeCol_noLimit sql aw hlarge h hw
  · intro hrd hed hst hw
    exact mindsdbQuery_plain_execute sql aw hw hrd hed hst

/-- Witness for C2's amended theorem at the concrete small-column query. -/
theorem claim_C2_missing_limit_guard_witness :
    strContains (strLower c2Sql) "limit" = false ∧
    ((executeQueryTool execEmptyOk lenZero "query_database" c2Sql).1.error =
      some "LIMIT clause required in all queries" ∧
    (executeQueryTool execEmptyOk lenZero "query_database" c2Sql).2 = false ∧
    ((strContains (strLower c2Sql) "raw_data" = true ∨
        strContains (strLower c2Sql) "error_details" = true) →
      (isWriteOperation c2Sql = false ∨ false = true) →
      mindsdbQuery c2Sql false = .rejectLargeMissingLimit) ∧
    (strContains (strLower c2Sql) "raw_data" = false →
      strContains (strLower c2Sql) "error_details" = false →
      strContains (strLower c2Sql) "select *" = false →
      (isWriteOperation c2Sql = false ∨ false = true) →
      mindsdbQuery c2Sql false = .execute)) :=
  ⟨by decide, claim_C2_missing_limit_guard execEmptyOk lenZero c2Sql false (by decide)⟩

/-- C10: the analyzers' row-limit guard is a pure case-insensitive substring
test: the `query_database` tool invokes the executor iff the lowercased SQL
contains the substring limit anywhere, and the same test governs the
`query_postgres_direct` custom-query path; in particular a query whose only
occurrence of limit sits inside the identifier `unlimited_offers` is still
executed. -/
theorem claim_C10_limit_substring_test {α : Type} (exec : String → ToolResult α)
    (strLen : ToolResult α → Nat) (sql : String) :
    ((executeQueryTool exec strLen "query_database" sql).2 = true ↔
      strContains (strLower sql) "limit" = true) ∧
    (sql.isEmpty = false →
      (executePostgresDirectTool "custom_query" (some sql) 5 = .executeSql sql ↔
        strContains (strLower sql) "limit" = true)) ∧
    (executeQueryTool exec strLen "query_database"
      "SELECT unlimited_offers FROM opportunities").2 = true := by
  refine ⟨?_, ?_, ?_⟩
  · cases h : strContains (strLower sql) "limit" <;> simp [executeQueryTool, h]
  · intro hne
    cases h : strContains (strLower sql) "limit" <;>
      simp [executePostgresDirectTool, optStrFalsy, hne, h]
  · have h : strContains (strLower "SELECT unlimited_offers FROM opportunities") "limit" = true := by
      decide
    simp [executeQueryTool, h]

/-- Witness for C10 at a concrete SQL string with a genuine LIMIT clause. -/
theorem claim_C10_limit_substring_test_witness :
    ((executeQueryTool execEmptyOk lenZero "query_database"
        "SELECT id FROM data_sources LIMIT 5").2 = true ↔
      strContains (strLower "SELECT id FROM data_sources LIMIT 5") "limit" = true) ∧
    (String.isEmpty "SELECT id FROM data_sources LIMIT 5" = false →
      (executePostgresDirectTool "custom_query" (some "SELECT id FROM data_sources LIMIT 5") 5 =
          .executeSql "SELECT id FROM data_sources LIMIT 5" ↔
        strContains (strLower "SELECT id FROM data_sources LIMIT 5") "limit" = true)) ∧
    (executeQueryTool execEmptyOk lenZero "query_database"
      "SELECT unlimited_offers FROM opportunities").2 = true :=
  claim_C10_limit_substring_test execEmptyOk lenZero "SELECT id FROM data_sources LIMIT 5"

/-- C4 counterexample: when every attempt fails with a rate-limit-classified
error, the retry loop sleeps 3, 6, 12 and 24 seconds — four delays between
the five attempts — and never sleeps 48 seconds: the claimed delay sequence
3, 6, 12, 24, 48 does not occur (`retry < max_retries - 1` prevents a sleep
after the fifth attempt). -/
theorem claim_C4_counterexample :
    (callWithRetry (fun _ => (Except.error "Rate limit exceeded" : Except String Unit))).2 =
      [3, 6, 12, 24] ∧
    (callWithRetry (fun _ => (Except.error "Rate limit exceeded" : Except String Unit))).2 ≠
      [3, 6, 12, 24, 48] ∧
    (callWithRetry (fun _ => (Except.error "Rate limit exceeded" : Except String Unit))).1 =
      Except.error "Rate limit exceeded" :=
  ⟨rfl, by decide, rfl⟩

/-- C4 amended: when the completion call fails with a rate-limit-classified
error on every attempt, the agent's retry loop with `max_retries = 5` and
base 3 seconds sleeps exactly the delays 3, 6, 12, 24 seconds (in that order,
one before each of the four re-attempts) and, after the fifth failed attempt,
propagates the error as fatal without a further sleep. -/
theorem claim_C4_backoff_sequence {α : Type} (attempt : Nat → Except String α)
    (h : ∀ k, k < 5 → ∃ e, attempt k = Except.error e ∧ isRateLimitText e = true) :
    (callWithRetry attempt).2 = [3, 6, 12, 24] ∧
    ∃ e, (callWithRetry attempt).1 = Except.error e ∧ isRateLimitText e = true := by
  obtain ⟨e0, h0, r0⟩ := h 0 (by omega)
  obtain ⟨e1, h1, r1⟩ := h 1 (by omega)
  obtain ⟨e2, h2, r2⟩ := h 2 (by omega)
  obtain ⟨e3, h3, r3⟩ := h 3 (by omega)
  obtain ⟨e4, h4, r4⟩ := h 4 (by omega)
  have key : callWithRetry attempt = (Except.error e4, [3, 6, 12, 24]) := by
    simp [callWithRetry, agentMaxRetries, retryLoop,
      h0, h1, h2, h3, h4, r0, r1, r2, r3, r4]
  rw [key]
  exact ⟨rfl, e4, rfl, r4⟩

/-- Witness for C4's amended theorem with a provider that always raises a
rate-limit error. -/
theorem claim_C4_backoff_sequence_witness :
    (callWithRetry (fun _ => (Except.error "rate limited" : Except String Unit))).2 =
      [3, 6, 12, 24] ∧
    ∃ e, (callWithRetry (fun _ => (Except.error "rate limited" : Except String Unit))).1 =
      Except.error e ∧ isRateLimitText e = true :=
  claim_C4_backoff_sequence (fun _ => (Except.error "rate limited" : Except String Unit))
    (fun _ _ => ⟨"rate limited", rfl, by decide⟩)

/-! ## Result handling of `MindsDBAgent.run` (`mindsdb_agent.py` lines 230-267)

In the agent's tool loop, the `query_mindsdb` branch (lines 231-233) hands
`str(result)` back to the model with no truncation at all.  The
`query_postgres_direct` branch computes a 5-row summary at lines 241-250 but
line 257 reassigns `result_str = str(result)` from the full result, so that
block is dead code; the effective behaviour is lines 257-267: hand back the
full result unless its serialization exceeds 10000 bytes, in which case hand
back a 3-row sample summary whose note names the original row count. -/

/-- The `result_summary` dictionary of `mindsdb_agent.py` lines 260-266. -/
structure AgentResultSummary (α : Type) where
  success : Bool
  row_count : Nat
  columns : List String
  data_sample : List α
  note : String
deriving DecidableEq, Repr

/-- What the agent serializes into one tool-result message: the full executor
result, or the truncated sample summary. -/
inductive AgentToolPayload (α : Type)
  /-- `str(result)` of the full executor result, verbatim -/
  | full (r : ToolResult α)
  /-- `str(result_summary)` of the 3-row sample dictionary -/
  | summary (s : AgentResultSummary α)
deriving DecidableEq, Repr

/-- The rows carried by the payload handed back to the model. -/
def AgentToolPayload.rows : AgentToolPayload α → List α
  | .full r => r.data
  | .summary s => s.data_sample

/-- The note of the sample summary (`mindsdb_agent.py` line 265). -/
def agentSampleNote (n : Nat) : String :=
  "Result truncated (showed 3/" ++ toString n ++
    " rows). Use export_query_results tool to save full dataset."

/-- `mindsdb_agent.py` lines 231-233: the `query_mindsdb` branch hands the
result back with no truncation. -/
def agentShapeMindsdb (result : ToolResult α) : AgentToolPayload α :=
  .full result

/-- `mindsdb_agent.py` lines 257-267, the effective truncation of the
`query_postgres_direct` branch (the 5-row block at lines 241-250 is
overwritten at line 257): full result up to 10000 serialized bytes, else the
3-row sample summary. -/
def agentShapePostgresDirect (strLen : ToolResult α → Nat) (result : ToolResult α) :
    AgentToolPayload α :=
  if strLen result > 10000 then
    .summary
      { success := result.success
        row_count := result.row_count
        columns := result.columns
        data_sample := if result.data.isEmpty then [] else result.data.take 3
        note := agentSampleNote result.row_count }
  else .full result

/-- A concrete successful six-row result. -/
def c5AgentResult : ToolResult Nat :=
  { success := true, data := [1, 2, 3, 4, 5, 6], columns := ["n"], row_count := 6,
    note := none, error := none }

/-- C5 counterexample: in `MindsDBAgent.run`, a successful six-row result
whose serialization is 4000 bytes — beyond the claimed 3000-byte ceiling —
is handed back to the model with all six rows, by both the `query_mindsdb`
branch (never truncates) and the `query_postgres_direct` branch (truncates
only beyond 10000 bytes): the shaped result is not capped to the first 5
rows and is not reduced to 2 rows at the byte ceiling. -/
theorem claim_C5_counterexample :
    c5AgentResult.success = true ∧ c5AgentResult.row_count > 0 ∧
    (fun (_ : ToolResult Nat) => 4000) c5AgentResult > 3000 ∧
    (agentShapeMindsdb c5AgentResult).rows = [1, 2, 3, 4, 5, 6] ∧
    (agentShapePostgresDirect (fun _ => 4000) c5AgentResult).rows = [1, 2, 3, 4, 5, 6] ∧
    ¬((agentShapePostgresDirect (fun _ => 4000) c5AgentResult).rows.length ≤ 5) := by
  decide

/-- C5 amended: for every successful query result with at least one row, the
analyzer's `query_database` shaper keeps at most 5 rows — exactly the first
5 rows (with the five-row note naming the original row count), or the first
2 rows (with the heavy-truncation note naming the original row count)
precisely when the serialized five-row dictionary exceeds the 3000-byte
ceiling — and its shaped `row_count` always equals the original row count,
never the truncated count; the agent's run, by contrast, hands
`query_mindsdb` results back with no truncation at all, and truncates
`query_postgres_direct` results only when their serialization exceeds 10000
bytes, to a first-3-rows sample whose note names the original row count. -/
theorem claim_C5_shaper_truncation {α : Type} (strLen : ToolResult α → Nat)
    (result : ToolResult α) (hs : result.success = true) (hr : result.row_count > 0) :
    ((shapeResult strLen result).row_count = result.row_count ∧
    (shapeResult strLen result).data.length ≤ 5 ∧
    (if strLen (fiveRowResult result) > 3000 then
      (shapeResult strLen result).data = result.data.take 2 ∧
        (shapeResult strLen result).note = some (noteTwo result.row_count)
    else
      (shapeResult strLen result).data = result.data.take 5 ∧
        (shapeResult strLen result).note = some (noteFive result.row_count))) ∧
    agentShapeMindsdb result = .full result ∧
    (if strLen result > 10000 then
      agentShapePostgresDirect strLen result =
        .summary
          { success := result.success
            row_count := result.row_count
            columns := result.columns
            data_sample := if result.data.isEmpty then [] else result.data.take 3
            note := agentSampleNote result.row_count }
    else agentShapePostgresDirect strLen result = .full result) := by
  refine ⟨?_, rfl, ?_⟩
  · unfold shapeResult
    rw [if_pos ⟨hs, hr⟩]
    by_cases h : strLen (fiveRowResult result) > 3000
    · rw [if_pos h, if_pos h]
      refine ⟨rfl, ?_, ?_, rfl⟩
      · exact (List.length_take_le 2 _).trans (by omega)
      · simp [List.take_take]
    · rw [if_neg h, if_neg h]
      exact ⟨rfl, List.length_take_le 5 _, rfl, rfl⟩
  · unfold agentShapePostgresDirect
    by_cases h : strLen result > 10000
    · rw [if_pos h, if_pos h]
    · rw [if_neg h, if_neg h]

/-- A concrete successful seven-row result. -/
def c5Result : ToolResult Nat :=
  { success := true, data := [10, 20, 30, 40, 50, 60, 70], columns := ["n"],
    row_count := 7, note := none, error := none }

/-- Witness for C5's amended theorem at the concrete seven-row result with a
small serialized size (the five-row analyzer branch, the untruncated agent
branches). -/
theorem claim_C5_shaper_truncation_witness :
    c5Result.success = true ∧ c5Result.row_count > 0 ∧
    (((shapeResult (fun _ => 0) c5Result).row_count = c5Result.row_count ∧
    (shapeResult (fun _ => 0) c5Result).data.length ≤ 5 ∧
    (if (fun (_ : ToolResult Nat) => 0) (fiveRowResult c5Result) > 3000 then
      (shapeResult (fun _ => 0) c5Result).data = c5Result.data.take 2 ∧
        (shapeResult (fun _ => 0) c5Result).note = some (noteTwo c5Result.row_count)
    else
      (shapeResult (fun _ => 0) c5Result).data = c5Result.data.take 5 ∧
        (shapeResult (fun _ => 0) c5Result).note = some (noteFive c5Result.row_count))) ∧
    agentShapeMindsdb c5Result = .full c5Result ∧
    (if (fun (_ : ToolResult Nat) => 0) c5Result > 10000 then
      agentShapePostgresDirect (fun _ => 0) c5Result =
        .summary
          { success := c5Result.success
            row_count := c5Result.row_count
            columns := c5Result.columns
            data_sample := if c5Result.data.isEmpty then [] else c5Result.data.take 3
            note := agentSampleNote c5Result.row_count }
    else agentShapePostgresDirect (fun _ => 0) c5Result = .full c5Result)) :=
  ⟨rfl, by decide, claim_C5_shaper_truncation (fun _ => 0) c5Result rfl (by decide)⟩

/-- C6 counterexample: on a final text on which decoding fails, the fallback
`data_sources_used` is the one-element list containing the string unknown,
not the empty list the claim states. -/
theorem claim_C6_counterexample :
    (parseFinalResponse decodeNone "Unable to produce structured output").data_sources_used =
      ["unknown"] ∧
    (parseFinalResponse decodeNone "Unable to produce structured output").data_sources_used ≠
      ([] : List String) := by decide

/-- C6 amended: for every final-turn text on which structured decoding fails,
the parser returns a fallback whose summary is the first 200 characters of
the raw text, whose detail is the raw text verbatim, whose `sources_used` is
the one-element list containing the string unknown, whose confidence is 0.5,
and whose recommendations list is empty. -/
theorem claim_C6_fallback_answer (decode : String → Option InsightData) (text : String)
    (h : decode (extractJsonStr text) = none) :
    parseFinalResponse decode text =
      { insight_summary := pySlice text 0 200
        detailed_analysis := text
        data_sources_used := ["unknown"]
        confidence_score := 1/2
        recommendations := [] } ∧
    (parseFinalResponse decode text).insight_summary = String.mk (text.data.take 200) := by
  have hp : parseFinalResponse decode text =
      { insight_summary := pySlice text 0 200
        detailed_analysis := text
        data_sources_used := ["unknown"]
        confidence_score := 1/2
        recommendations := [] } := by
    unfold parseFinalResponse
    rw [h]
  refine ⟨hp, ?_⟩
  rw [hp]
  show pySlice text 0 200 = String.mk (text.data.take 200)
  unfold pySlice pyClampIndex
  rw [if_neg (by omega), if_neg (by omega)]
  simp only [show Int.toNat 200 = 200 from rfl, Int.toNat_zero, Nat.zero_min, List.drop_zero]
  rcases le_total 200 text.data.length with hle | hle
  · rw [min_eq_left hle]
  · rw [min_eq_right hle, List.take_length, List.take_of_length_le hle]

/-- Witness for C6's amended theorem at a concrete undecodable text. -/
theorem claim_C6_fallback_answer_witness :
    decodeNone (extractJsonStr "the data was inconclusive") = none ∧
    (parseFinalResponse decodeNone "the data was inconclusive" =
      { insight_summary := pySlice "the data was inconclusive" 0 200
        detailed_analysis := "the data was inconclusive"
        data_sources_used := ["unknown"]
        confidence_score := 1/2
        recommendations := [] } ∧
    (parseFinalResponse decodeNone "the data was inconclusive").insight_summary =
      String.mk ("the data was inconclusive".data.take 200)) :=
  ⟨rfl, claim_C6_fallback_answer decodeNone "the data was inconclusive" rfl⟩

/-- A well-paired 13-message conversation whose naive last-10 tail slice
starts on the tool-result turn of the pair at positions 2-3. -/
def conv13 : List Msg :=
  [Msg.userTurn "q",
   Msg.assistantTurn "plan" [],
   Msg.assistantTurn "a1" [1],
   Msg.userToolResults [1],
   Msg.assistantTurn "a2" [2],
   Msg.userToolResults [2],
   Msg.assistantTurn "a3" [3],
   Msg.userToolResults [3],
   Msg.assistantTurn "a4" [4],
   Msg.userToolResults [4],
   Msg.assistantTurn "a5" [5],
   Msg.userToolResults [5],
   Msg.assistantTurn "done" []]

/-- C3 counterexample: on a conversation whose naive tail slice starts
mid-pair (on a tool-result turn), the agent's pruner does not extend the
slice backward by one turn: it shrinks the slice forward instead, dropping
the orphaned tool-result turn, and the pair's assistant turn is absent from
the pruned conversation even though the backward-extension behaviour would
retain it. -/
theorem claim_C3_counterexample :
    (conv13.drop (conv13.length - 10)).head?.map Msg.isToolResult = some true ∧
    pruneAgent conv13 ≠ pruneClaimBackwardExtend conv13 ∧
    Msg.assistantTurn "a1" [1] ∈ pruneClaimBackwardExtend conv13 ∧
    Msg.assistantTurn "a1" [1] ∉ pruneAgent conv13 ∧
    Msg.userToolResults [1] ∉ pruneAgent conv13 := by decide

/-- C3 amended: for every well-paired conversation starting with a turn that
carries no tool requests, both pruners return a conversation in which every
assistant turn with tool requests is still immediately followed by the tool
results answering those requests; but when the naive tail slice would start
mid-pair the agent's pruner shrinks the slice forward by one turn (dropping
the leading user-role turn) rather than extending it backward, and the
analyzer's pruner is a plain tail slice with no adjustment. -/
theorem claim_C3_pruning_pairing (msgs : List Msg) (hw : WellPaired msgs)
    (h0 : ∀ m, msgs.head? = some m → m.hasToolRequests = false) :
    WellPaired (pruneAnalyzer msgs) ∧ WellPaired (pruneAgent msgs) ∧
    (∀ m rest, msgs.length > 12 → msgs.drop (msgs.length - 10) = m :: rest →
      m.role = Role.user →
      pruneAgent msgs = msgs.take 1 ++ msgs.drop (msgs.length - 9)) ∧
    (msgs.length > 6 → pruneAnalyzer msgs = msgs.drop (msgs.length - 6)) := by
  have key : ∀ j, WellPaired (msgs.take 1 ++ msgs.drop j) := by
    intro j
    cases msgs with
    | nil =>
      intro i c ids hi hne
      simp at hi
    | cons m0 t =>
      rw [show (m0 :: t).take 1 = [m0] from rfl]
      exact wellPaired_cons m0 _ (h0 m0 rfl) (wellPaired_drop _ j hw)
  refine ⟨?_, ?_, ?_, ?_⟩
  · unfold pruneAnalyzer
    split
    · exact wellPaired_drop msgs _ hw
    · exact hw
  · unfold pruneAgent
    by_cases hlen : msgs.length > 12
    · rw [if_pos hlen]
      rcases hd : msgs.drop (msgs.length - 10) with _ | ⟨m, rest⟩ <;> simp only [hd]
      · rw [← hd]
        exact key _
      · by_cases hr : m.role = Role.user
        · simp only [if_pos hr]
          exact key _
        · simp only [if_neg hr]
          rw [← hd]
          exact key _
    · rw [if_neg hlen]
      exact hw
  · intro m rest hlen hdrop hrole
    unfold pruneAgent
    rw [if_pos hlen]
    simp only [hdrop, if_pos hrole]
  · intro hlen
    unfold pruneAnalyzer
    rw [if_pos hlen]

/-- Witness for C3's amended theorem at a one-turn conversation. -/
theorem claim_C3_pruning_pairing_witness :
    WellPaired (pruneAnalyzer [Msg.userTurn "q"]) ∧
    WellPaired (pruneAgent [Msg.userTurn "q"]) ∧
    (∀ m rest, ([Msg.userTurn "q"] : List Msg).length > 12 →
      ([Msg.userTurn "q"] : List Msg).drop (([Msg.userTurn "q"] : List Msg).length - 10) =
        m :: rest →
      m.role = Role.user →
      pruneAgent [Msg.userTurn "q"] =
        ([Msg.userTurn "q"] : List Msg).take 1 ++
          ([Msg.userTurn "q"] : List Msg).drop (([Msg.userTurn "q"] : List Msg).length - 9)) ∧
    (([Msg.userTurn "q"] : List Msg).length > 6 →
      pruneAnalyzer [Msg.userTurn "q"] =
        ([Msg.userTurn "q"] : List Msg).drop (([Msg.userTurn "q"] : List Msg).length - 6)) :=
  claim_C3_pruning_pairing [Msg.userTurn "q"]
    (by
      intro i c ids hi hne
      cases i with
      | zero => simp at hi
      | succ j => simp at hi)
    (by
      intro m hm
      injection hm with h
      rw [← h]
      rfl)

/-- The provider script that requests the `query_database` tool nine times in
a row, then concludes; each requested SQL carries a LIMIT clause. -/
def nineQueryScript : List ModelTurn :=
  (List.range 9).map (fun i =>
    ModelTurn.toolUse "running query"
      [{ id := i, name := "query_database",
         sql := "SELECT data_id FROM service19_onboarding_data LIMIT 1" }]) ++
  [ModelTurn.finalTurn "analysis complete"]

/-- C1: evaluation of `analyze_city` at the failing input — a provider that
requests a query-class tool nine times in a row.  All nine requests are
dispatched (`countQueryDispatches` is 9, exceeding the claimed
`queries_max = 8` budget) and the run ends with a parsed final answer, not a
budget-exceeded outcome: the source keeps no query counter at all, only the
12-iteration cap. -/
theorem claim_C1_ninth_query_dispatched :
    countQueryDispatches
      (analyzeCityRun decodeNone execEmptyOk lenZero "Analyze Bristol, GB" nineQueryScript).2 = 9 ∧
    (analyzeCityRun decodeNone execEmptyOk lenZero "Analyze Bristol, GB" nineQueryScript).1 =
      AnalyzerOutcome.finalAnswer
        { insight_summary := "analysis complete"
          detailed_analysis := "analysis complete"
          data_sources_used := ["unknown"]
          confidence_score := 1/2
          recommendations := [] } := by
  constructor
  · decide
  · rfl

end CNZ
